import Mathlib

/-!
Verification of the zenith disk-panel renderer (`src/renderer/disk.rs`).

Shallow embedding of the three routines `render_disk`, `disk_activity_histogram`
and `disk_usage`.  Rendering side effects on the terminal frame are modelled as
the list of draw operations the routine issues (sparklines with their title,
data, scale maximum and colour; styled paragraphs; the selector list entries).
Geometry (rectangles, margins, 50/50 splits) is not modelled: no claim depends
on it.  Unsigned 64-bit metric magnitudes are modelled as `Nat` (none of the
verified code paths performs arithmetic that can overflow or wrap), and the
floating-point percentage computations as `ℚ`.
-/

/-- Colours used by the renderer (`tui::style::Color`). -/
inductive RColor where
  | red
  | green
  | lightYellow
  | lightMagenta
  deriving DecidableEq, Repr

/-- A text style: `tui::style::Style` restricted to the fields the renderer
sets (foreground colour and the BOLD modifier). `Style::default()` has no
foreground and no modifier. -/
structure RStyle where
  fg : Option RColor
  bold : Bool
  deriving DecidableEq, Repr

/-- The value of `Style::default()`. -/
def RStyle.styleDefault : RStyle := { fg := none, bold := false }

/-- The style `Style::default().fg(Color::Red).add_modifier(Modifier::BOLD)`
of a low-free-space selector entry (disk.rs line 44). -/
def alertStyle : RStyle := { fg := some RColor.red, bold := true }

/-- The style `Style::default().fg(Color::Green)` of a healthy selector
entry (disk.rs line 46). -/
def healthyStyle : RStyle := { fg := some RColor.green, bold := false }

/-- A disk entry of the metrics snapshot (`app.disks` elements). The mount
point path is modelled as its displayed string. -/
structure DiskInfo where
  name : String
  mount_point : String
  file_system : String
  size_bytes : Nat
  available_bytes : Nat
  deriving DecidableEq, Repr

/-- Modelled from the spec: `get_perc_free_space` is defined in
`src/metrics.rs`, which is not among the provided sources; the spec gives
`percent_free = available_bytes / size_bytes * 100`. -/
def DiskInfo.get_perc_free_space (d : DiskInfo) : ℚ :=
  (d.available_bytes : ℚ) / (d.size_bytes : ℚ) * 100

/-- Modelled from the spec: `used_bytes = size_bytes - available_bytes`
(`get_used_bytes` lives in `src/metrics.rs`, not among the provided sources). -/
def DiskInfo.get_used_bytes (d : DiskInfo) : Nat :=
  d.size_bytes - d.available_bytes

/-- Modelled from the spec: `percent_used = 100 - percent_free`
(`get_perc_used_space` lives in `src/metrics.rs`, not among the provided
sources). -/
def DiskInfo.get_perc_used_space (d : DiskInfo) : ℚ :=
  100 - d.get_perc_free_space

/-- A process-table entry, restricted to the fields the renderer reads. -/
structure ZProcess where
  pid : Nat
  name : String
  user_name : String
  deriving DecidableEq, Repr

/-- The `HistogramKind` key selecting a time series. -/
inductive HistogramKind where
  | IoRead
  | IoWrite
  | FileSystemUsedSpace (name : String)
  deriving DecidableEq, Repr

/-- The zoom/view descriptor is opaque to the renderer and threaded through
unchanged to `get_zoomed`; its representation is irrelevant here. -/
abbrev View := Nat

/-- A retrieved histogram: the renderer only calls `.data()` on it. -/
structure Histogram where
  data : List Nat
  deriving DecidableEq, Repr

/-- The history store, specified by its query interface:
`get_zoomed(kind, view)` returns an optional histogram. -/
structure HistogramMap where
  get_zoomed : HistogramKind → View → Option Histogram

/-- The slice of `CPUTimeApp` that `disk.rs` reads. `process_map` is the
pid → process lookup interface. -/
structure CPUTimeApp where
  disks : List DiskInfo
  disk_read : Nat
  disk_write : Nat
  top_disk_reader_pid : Option Nat
  top_disk_writer_pid : Option Nat
  process_map : Nat → Option ZProcess
  histogram_map : HistogramMap

/-- Modelled from the spec: the `float_to_byte_string!` macro is defined
outside the provided sources (spec §9: "a single pure formatting utility
(value, unit) → string" performing human-readable unit scaling).  Only its
purely functional dependence on the numeric value matters to the claims. -/
def float_to_byte_string (v : Nat) : String :=
  if v < 1024 then toString v ++ " B"
  else if v < 1024 * 1024 then toString (v / 1024) ++ " KB"
  else if v < 1024 * 1024 * 1024 then toString (v / (1024 * 1024)) ++ " MB"
  else toString (v / (1024 * 1024 * 1024)) ++ " GB"

/-- The Rust `{:^10}` format: centre the string in a field of width 10
(shorter pad on the left). -/
def center10 (s : String) : String :=
  if 10 ≤ s.length then s
  else
    let pad := 10 - s.length
    String.mk (List.replicate (pad / 2) ' ') ++ s ++
      String.mk (List.replicate (pad - pad / 2) ' ')

/-- The Rust `{:3.0}` format for the free-space percentage: round to an
integer and left-pad to width 3. -/
def fmt3_0 (q : ℚ) : String :=
  let s := toString (round q)
  if s.length < 3 then String.mk (List.replicate (3 - s.length) ' ') ++ s else s

/-- The `FileSystemDisplay` mode toggled by the `a` key. -/
inductive FileSystemDisplay where
  | Activity
  | Usage
  deriving DecidableEq, Repr

/-- One issued draw operation.  A sparkline records the title string of its
block, the data slice, the `.max(...)` scale value and its colour; a
paragraph records its lines as (span text, span style) lists. -/
inductive RenderOp where
  | sparkline (title : String) (data : List Nat) (mx : Nat) (color : RColor)
  | paragraph (lines : List (List (String × RStyle)))
  deriving DecidableEq, Repr

/-- One entry of the selector list: the `Span` content and style from which
a `ListItem` is built (disk.rs lines 48–66). -/
structure SelectorEntry where
  text : String
  style : RStyle
  deriving DecidableEq, Repr

/-- The selector-list construction of `render_disk` (disk.rs lines 38–69):
entries are `enumerate`d, styled by the free-space threshold, and the entry
at `file_system_index` gets the `→` marker, all others a space. -/
def selectorEntries (disks : List DiskInfo) (file_system_index : Nat) :
    List SelectorEntry :=
  disks.enum.map (fun p =>
    let style :=
      if p.2.get_perc_free_space < 10 then alertStyle else healthyStyle
    if file_system_index = p.1 then
      { text := "→" ++ (fmt3_0 p.2.get_perc_free_space ++ ("%: " ++ p.2.mount_point)),
        style := style }
    else
      { text := " " ++ (fmt3_0 p.2.get_perc_free_space ++ ("%: " ++ p.2.mount_point)),
        style := style })

/-- The title of an activity sparkline:
`format!("{} [{:^10}/s] Max [{:^10}/s] {}", dir, cur, mx, attr)`
(disk.rs lines 131 and 146, with the direction letter factored out). -/
def activityTitle (dir cur mx attr : String) : String :=
  dir ++ " [" ++ center10 cur ++ "/s] Max [" ++ center10 mx ++ "/s] " ++ attr

/-- The top-reader / top-writer attribution label (disk.rs lines 100–106 and
120–126): `format!("[{} - {} - {}]", p.pid, p.name, p.user_name)` on a
successful lookup, the empty string when the pid is absent or unresolvable. -/
def processLabel (pid? : Option Nat) (process_map : Nat → Option ZProcess) :
    String :=
  match pid? with
  | some pid =>
    match process_map pid with
    | some p => "[" ++ toString p.pid ++ " - " ++ p.name ++ " - " ++ p.user_name ++ "]"
    | none => ""
  | none => ""

/-- The windowed maximum used as the sparkline scale (disk.rs lines 94–97 and
114–117): `match data.iter().max() { Some(x) => *x, None => 1 }`. -/
def seriesMax (data : List Nat) : Nat :=
  match data.max? with
  | some x => x
  | none => 1

/-- The function `disk_activity_histogram` (disk.rs lines 82–156) as the list of draw
operations it issues.  The early `return`s on an absent IoRead or IoWrite
series yield the empty list; otherwise the two sparklines are rendered. -/
def disk_activity_histogram (app : CPUTimeApp) (view : View) : List RenderOp :=
  let read_up := float_to_byte_string app.disk_read
  match app.histogram_map.get_zoomed HistogramKind.IoRead view with
  | none => []
  | some h_read =>
    let read_max := seriesMax h_read.data
    let read_max_bytes := float_to_byte_string read_max
    let top_reader := processLabel app.top_disk_reader_pid app.process_map
    let write_down := float_to_byte_string app.disk_write
    match app.histogram_map.get_zoomed HistogramKind.IoWrite view with
    | none => []
    | some h_write =>
      let write_max := seriesMax h_write.data
      let write_max_bytes := float_to_byte_string write_max
      let top_writer := processLabel app.top_disk_writer_pid app.process_map
      [RenderOp.sparkline (activityTitle "R" read_up read_max_bytes top_reader)
          h_read.data read_max RColor.lightYellow,
        RenderOp.sparkline (activityTitle "W" write_down write_max_bytes top_writer)
          h_write.data write_max RColor.lightMagenta]

/-- The Rust `{:.1}` format for the usage percentages: one decimal place. -/
def fmt1 (q : ℚ) : String :=
  let t := round (q * 10)
  toString (t / 10) ++ "." ++ toString (t % 10).natAbs

/-- The title of the usage sparkline (disk.rs lines 179–188). -/
def usageTitle (fs : DiskInfo) (used free size : String) : String :=
  fs.name ++ "  ↓Used [" ++ center10 used ++ " (" ++ fmt1 fs.get_perc_used_space ++
    "%)] Free [" ++ center10 free ++ " (" ++ fmt1 fs.get_perc_free_space ++
    "%)] Size [" ++ center10 size ++ "]"

/-- The style of right-hand detail values (disk.rs line 200). -/
def rhs_style : RStyle := { fg := some RColor.green, bold := false }

/-- The function `disk_usage` (disk.rs lines 158–232) as the list of draw operations it
issues: nothing when `disks.get(file_system_index)` is `None` or the
used-space series for the selected device is absent; otherwise the
capacity-scaled sparkline and the two detail paragraphs. -/
def disk_usage (app : CPUTimeApp) (view : View) (file_system_index : Nat) :
    List RenderOp :=
  match app.disks.get? file_system_index with
  | none => []
  | some fs =>
    match app.histogram_map.get_zoomed
        (HistogramKind.FileSystemUsedSpace fs.name) view with
    | none => []
    | some h_used =>
      let free := float_to_byte_string fs.available_bytes
      let used := float_to_byte_string fs.get_used_bytes
      let size := float_to_byte_string fs.size_bytes
      [RenderOp.sparkline (usageTitle fs used free size) h_used.data
          fs.size_bytes RColor.lightYellow,
        RenderOp.paragraph
          [[("Name:                  ", RStyle.styleDefault), (fs.name, rhs_style)],
            [("File System            ", RStyle.styleDefault), (fs.file_system, rhs_style)],
            [("Mount Point:           ", RStyle.styleDefault), (fs.mount_point, rhs_style)]],
        RenderOp.paragraph
          [[("Size:                  ", RStyle.styleDefault), (size, rhs_style)],
            [("Used                   ", RStyle.styleDefault), (used, rhs_style)],
            [("Free:                  ", RStyle.styleDefault), (free, rhs_style)]]]

/-- The output of `render_disk` (disk.rs lines 16–81): the detail-area
operations (dispatched on the display mode) and the selector list. -/
structure DiskPanel where
  detail : List RenderOp
  selector : List SelectorEntry
  deriving Repr

/-- The function `render_disk` (disk.rs lines 16–81): dispatches the detail area to
`disk_activity_histogram` or `disk_usage` and builds the selector list. -/
def render_disk (app : CPUTimeApp) (view : View) (file_system_index : Nat)
    (file_system_display : FileSystemDisplay) : DiskPanel :=
  { detail :=
      if file_system_display = FileSystemDisplay.Activity then
        disk_activity_histogram app view
      else
        disk_usage app view file_system_index,
    selector := selectorEntries app.disks file_system_index }

/-- Predicate: the string `s` begins with the marker `m`. -/
def beginsWith (s m : String) : Prop := ∃ r, s = m ++ r

/-- Concrete disk with 5% free space (spec §8, property 5). -/
def diskA : DiskInfo :=
  { name := "sda1", mount_point := "/", file_system := "ext4",
    size_bytes := 1000, available_bytes := 50 }

/-- Concrete disk with 90% free space (spec §8, property 5). -/
def diskB : DiskInfo :=
  { name := "sdb1", mount_point := "/data", file_system := "ext4",
    size_bytes := 1000, available_bytes := 900 }

/-- Concrete process table resolving pid 42 only. -/
def procMapW : Nat → Option ZProcess :=
  fun pid => if pid = 42 then some ⟨42, "proc", "u"⟩ else none

/-- Concrete history store with read, write and used-space series present. -/
def hmapW : HistogramMap :=
  ⟨fun k _ =>
    match k with
    | HistogramKind.IoRead => some ⟨[10, 50, 30]⟩
    | HistogramKind.IoWrite => some ⟨[5, 5, 5]⟩
    | HistogramKind.FileSystemUsedSpace n =>
      if n = "sda1" then some ⟨[100, 200, 150]⟩ else none⟩

/-- Concrete snapshot used to exercise the theorems. -/
def appW : CPUTimeApp :=
  { disks := [diskA, diskB], disk_read := 100, disk_write := 200,
    top_disk_reader_pid := some 42, top_disk_writer_pid := none,
    process_map := procMapW, histogram_map := hmapW }

/-- Concrete history store with the same keys present as `hmapW` but
different sample contents. -/
def hmapW2 : HistogramMap :=
  ⟨fun k _ =>
    match k with
    | HistogramKind.IoRead => some ⟨[1, 2]⟩
    | HistogramKind.IoWrite => some ⟨[7]⟩
    | HistogramKind.FileSystemUsedSpace n =>
      if n = "sda1" then some ⟨[300]⟩ else none⟩

/-- Copy of `appW` differing only in the history-series contents. -/
def appW2 : CPUTimeApp := { appW with histogram_map := hmapW2 }

/-- Concrete history store with the IoRead series absent but the IoWrite
series present, and no used-space series. -/
def hmapNoRead : HistogramMap :=
  ⟨fun k _ =>
    match k with
    | HistogramKind.IoWrite => some ⟨[5]⟩
    | _ => none⟩

/-- Concrete snapshot whose IoRead series is absent. -/
def appNoRead : CPUTimeApp :=
  { disks := [diskA], disk_read := 3, disk_write := 4,
    top_disk_reader_pid := none, top_disk_writer_pid := none,
    process_map := fun _ => none, histogram_map := hmapNoRead }

/-- Concrete history store whose read and write series are non-empty and
all-zero. -/
def hmapZero : HistogramMap :=
  ⟨fun k _ =>
    match k with
    | HistogramKind.IoRead => some ⟨[0, 0]⟩
    | HistogramKind.IoWrite => some ⟨[0, 0]⟩
    | _ => none⟩

/-- Concrete snapshot whose read and write series are non-empty and
all-zero. -/
def appZero : CPUTimeApp :=
  { disks := [], disk_read := 0, disk_write := 0,
    top_disk_reader_pid := none, top_disk_writer_pid := none,
    process_map := fun _ => none, histogram_map := hmapZero }

/-- A string beginning with a space differs from any string beginning with
the selection marker. -/
theorem space_append_ne_arrow (r r' : String) : (" " ++ r) ≠ ("→" ++ r') := by
  intro h
  have h2 := congrArg String.data h
  simp [String.data_append] at h2

/-- The selector list has one entry per disk. -/
theorem selectorEntries_length (disks : List DiskInfo) (idx : Nat) :
    (selectorEntries disks idx).length = disks.length := by
  simp [selectorEntries]

/-- Entry styles: alert exactly below the 10% free-space threshold, healthy
otherwise, for any selection index. -/
theorem selector_style_spec (disks : List DiskInfo) (idx i : Nat)
    (h1 : i < (selectorEntries disks idx).length) (h2 : i < disks.length) :
    (((selectorEntries disks idx)[i]).style = alertStyle ↔
      disks[i].get_perc_free_space < 10) ∧
    (((selectorEntries disks idx)[i]).style = healthyStyle ↔
      ¬ disks[i].get_perc_free_space < 10) := by
  simp only [selectorEntries, List.getElem_map, List.getElem_enum]
  by_cases hq : disks[i].get_perc_free_space < 10 <;>
    by_cases he : idx = i <;>
      simp [hq, he, alertStyle, healthyStyle]

/-- The entry at the selection index, and only that entry, carries the
marker glyph; all other entries begin with a space. -/
theorem selector_marker_spec (disks : List DiskInfo) (idx i : Nat)
    (h1 : i < (selectorEntries disks idx).length) :
    (beginsWith ((selectorEntries disks idx)[i]).text "→" ↔ i = idx) ∧
    (i ≠ idx → beginsWith ((selectorEntries disks idx)[i]).text " ") := by
  have h2 : i < disks.length := by simpa [selectorEntries] using h1
  simp only [selectorEntries, List.getElem_map, List.getElem_enum]
  by_cases he : idx = i
  · subst he
    rw [if_pos rfl]
    exact ⟨⟨fun _ => rfl, fun _ => ⟨_, rfl⟩⟩, fun hni => absurd rfl hni⟩
  · rw [if_neg he]
    refine ⟨⟨?_, fun hi => absurd hi.symm he⟩, fun _ => ⟨_, rfl⟩⟩
    rintro ⟨r, hr⟩
    exact absurd hr (space_append_ne_arrow _ _)

/-- The list of entry styles does not depend on the selection index. -/
theorem selector_styles_independent (disks : List DiskInfo) (idx idx' : Nat) :
    (selectorEntries disks idx).map SelectorEntry.style =
      (selectorEntries disks idx').map SelectorEntry.style := by
  simp only [selectorEntries, List.map_map]
  congr 1
  funext p
  simp [Function.comp, apply_ite SelectorEntry.style]

/-- The windowed maximum of the empty series defaults to 1. -/
theorem seriesMax_nil : seriesMax [] = 1 := rfl

/-- For a non-empty series the windowed maximum is attained and bounds
every sample. -/
theorem seriesMax_spec (data : List Nat) (h : data ≠ []) :
    seriesMax data ∈ data ∧ ∀ v ∈ data, v ≤ seriesMax data := by
  cases hm : data.max? with
  | none => exact absurd (List.max?_eq_none_iff.mp hm) h
  | some x =>
    have hmem : x ∈ data := List.max?_mem (fun a b => max_choice a b) hm
    have hub : ∀ v ∈ data, v ≤ x :=
      (List.max?_le_iff (fun a b c => max_le_iff) hm).mp (le_refl x)
    have hx : seriesMax data = x := by simp [seriesMax, hm]
    rw [hx]
    exact ⟨hmem, hub⟩

/-- When both I/O series are present, the activity view issues exactly the
read and write sparklines, in that order. -/
theorem disk_activity_histogram_present (app : CPUTimeApp) (view : View)
    (h_read h_write : Histogram)
    (h1 : app.histogram_map.get_zoomed HistogramKind.IoRead view = some h_read)
    (h2 : app.histogram_map.get_zoomed HistogramKind.IoWrite view = some h_write) :
    disk_activity_histogram app view =
      [RenderOp.sparkline
          (activityTitle "R" (float_to_byte_string app.disk_read)
            (float_to_byte_string (seriesMax h_read.data))
            (processLabel app.top_disk_reader_pid app.process_map))
          h_read.data (seriesMax h_read.data) RColor.lightYellow,
        RenderOp.sparkline
          (activityTitle "W" (float_to_byte_string app.disk_write)
            (float_to_byte_string (seriesMax h_write.data))
            (processLabel app.top_disk_writer_pid app.process_map))
          h_write.data (seriesMax h_write.data) RColor.lightMagenta] := by
  unfold disk_activity_histogram
  rw [h1, h2]

/-- When the selected device and its used-space series are present, the
usage view issues exactly the capacity-scaled sparkline and the two detail
paragraphs. -/
theorem disk_usage_present (app : CPUTimeApp) (view : View)
    (file_system_index : Nat) (fs : DiskInfo) (h_used : Histogram)
    (h1 : app.disks.get? file_system_index = some fs)
    (h2 : app.histogram_map.get_zoomed
      (HistogramKind.FileSystemUsedSpace fs.name) view = some h_used) :
    disk_usage app view file_system_index =
      [RenderOp.sparkline
          (usageTitle fs (float_to_byte_string fs.get_used_bytes)
            (float_to_byte_string fs.available_bytes)
            (float_to_byte_string fs.size_bytes))
          h_used.data fs.size_bytes RColor.lightYellow,
        RenderOp.paragraph
          [[("Name:                  ", RStyle.styleDefault), (fs.name, rhs_style)],
            [("File System            ", RStyle.styleDefault), (fs.file_system, rhs_style)],
            [("Mount Point:           ", RStyle.styleDefault), (fs.mount_point, rhs_style)]],
        RenderOp.paragraph
          [[("Size:                  ", RStyle.styleDefault),
              (float_to_byte_string fs.size_bytes, rhs_style)],
            [("Used                   ", RStyle.styleDefault),
              (float_to_byte_string fs.get_used_bytes, rhs_style)],
            [("Free:                  ", RStyle.styleDefault),
              (float_to_byte_string fs.available_bytes, rhs_style)]]] := by
  simp only [disk_usage, h1, h2]

/-- C1: for every disk list and every selected index, the selector list of
`render_disk` has exactly one entry per disk; an entry is styled in the
alert style (bold red) iff that disk has strictly less than 10% free space,
and in the healthy style (green) otherwise; and the list of entry styles is
the same for every selected index. -/
theorem c1_selector_styling (disks : List DiskInfo) (idx idx' : Nat) :
    (selectorEntries disks idx).length = disks.length ∧
    alertStyle ≠ healthyStyle ∧
    (∀ i, ∀ h1 : i < (selectorEntries disks idx).length, ∀ h2 : i < disks.length,
      (((selectorEntries disks idx)[i]).style = alertStyle ↔
        disks[i].get_perc_free_space < 10) ∧
      (((selectorEntries disks idx)[i]).style = healthyStyle ↔
        ¬ disks[i].get_perc_free_space < 10)) ∧
    (selectorEntries disks idx).map SelectorEntry.style =
      (selectorEntries disks idx').map SelectorEntry.style :=
  ⟨selectorEntries_length disks idx, by decide,
    fun i h1 h2 => selector_style_spec disks idx i h1 h2,
    selector_styles_independent disks idx idx'⟩

/-- Witness for C1 at a concrete snapshot: two disks with 5% and 90% free
space, selected index 0 versus 1. -/
theorem c1_selector_styling_witness :
    (selectorEntries [diskA, diskB] 0).length = ([diskA, diskB] : List DiskInfo).length ∧
    (((selectorEntries [diskA, diskB] 0).get ⟨0, by decide⟩).style = alertStyle ↔
      (([diskA, diskB] : List DiskInfo).get ⟨0, by decide⟩).get_perc_free_space < 10) ∧
    (((selectorEntries [diskA, diskB] 0).get ⟨1, by decide⟩).style = healthyStyle ↔
      ¬ (([diskA, diskB] : List DiskInfo).get ⟨1, by decide⟩).get_perc_free_space < 10) ∧
    (selectorEntries [diskA, diskB] 0).map SelectorEntry.style =
      (selectorEntries [diskA, diskB] 1).map SelectorEntry.style :=
  ⟨(c1_selector_styling [diskA, diskB] 0 1).1,
    ((c1_selector_styling [diskA, diskB] 0 1).2.2.1 0 (by decide) (by decide)).1,
    ((c1_selector_styling [diskA, diskB] 0 1).2.2.1 1 (by decide) (by decide)).2,
    (c1_selector_styling [diskA, diskB] 0 1).2.2.2⟩

/-- C10: in every selector list produced by `render_disk`, an entry begins
with the selection marker glyph `→` exactly when it sits at the selected
index (hence no entry does when the index is out of range), and every other
entry begins with a space in place of the marker. -/
theorem c10_selection_marker (disks : List DiskInfo) (idx i : Nat)
    (h1 : i < (selectorEntries disks idx).length) :
    (beginsWith ((selectorEntries disks idx)[i]).text "→" ↔ i = idx) ∧
    (i ≠ idx → beginsWith ((selectorEntries disks idx)[i]).text " ") :=
  selector_marker_spec disks idx i h1

/-- Witness for C10 at a concrete snapshot: with index 0 selected, entry 1
does not carry the marker and begins with a space. -/
theorem c10_selection_marker_witness :
    (beginsWith ((selectorEntries [diskA, diskB] 0).get ⟨1, by decide⟩).text "→" ↔
      1 = 0) ∧
    (1 ≠ 0 → beginsWith ((selectorEntries [diskA, diskB] 0).get ⟨1, by decide⟩).text " ") :=
  c10_selection_marker [diskA, diskB] 0 1 (by decide)

/-- C2: if the IoRead lookup or the IoWrite lookup returns absent,
`disk_activity_histogram` draws nothing at all for that call — neither the
read strip nor the write strip, even when the other series is present. -/
theorem c2_activity_both_or_nothing (app : CPUTimeApp) (view : View)
    (h : app.histogram_map.get_zoomed HistogramKind.IoRead view = none ∨
      app.histogram_map.get_zoomed HistogramKind.IoWrite view = none) :
    disk_activity_histogram app view = [] := by
  cases hR : app.histogram_map.get_zoomed HistogramKind.IoRead view with
  | none => simp [disk_activity_histogram, hR]
  | some a =>
    cases hW : app.histogram_map.get_zoomed HistogramKind.IoWrite view with
    | none => simp [disk_activity_histogram, hR, hW]
    | some b =>
      rcases h with h | h
      · rw [h] at hR
        exact Option.noConfusion hR
      · rw [h] at hW
        exact Option.noConfusion hW

/-- Witness for C2 at a concrete snapshot whose IoRead series is absent
while its IoWrite series is present. -/
theorem c2_activity_both_or_nothing_witness :
    appNoRead.histogram_map.get_zoomed HistogramKind.IoRead 0 = none ∧
    appNoRead.histogram_map.get_zoomed HistogramKind.IoWrite 0 = some ⟨[5]⟩ ∧
    disk_activity_histogram appNoRead 0 = [] :=
  ⟨rfl, rfl, c2_activity_both_or_nothing appNoRead 0 (Or.inl rfl)⟩

/-- C3: when both series are fetched, the scale value used for each strip is
`seriesMax` of that series, which for a non-empty series is attained in the
series and bounds every sample (so it equals the maximum of the values), and
for an empty series equals 1. -/
theorem c3_activity_scale_windowed_max (app : CPUTimeApp) (view : View)
    (h_read h_write : Histogram)
    (h1 : app.histogram_map.get_zoomed HistogramKind.IoRead view = some h_read)
    (h2 : app.histogram_map.get_zoomed HistogramKind.IoWrite view = some h_write) :
    (∃ tR tW, disk_activity_histogram app view =
      [RenderOp.sparkline tR h_read.data (seriesMax h_read.data) RColor.lightYellow,
        RenderOp.sparkline tW h_write.data (seriesMax h_write.data) RColor.lightMagenta]) ∧
    (h_read.data ≠ [] →
      seriesMax h_read.data ∈ h_read.data ∧
        ∀ v ∈ h_read.data, v ≤ seriesMax h_read.data) ∧
    (h_read.data = [] → seriesMax h_read.data = 1) ∧
    (h_write.data ≠ [] →
      seriesMax h_write.data ∈ h_write.data ∧
        ∀ v ∈ h_write.data, v ≤ seriesMax h_write.data) ∧
    (h_write.data = [] → seriesMax h_write.data = 1) :=
  ⟨⟨_, _, disk_activity_histogram_present app view h_read h_write h1 h2⟩,
    fun h => seriesMax_spec _ h, fun h => by rw [h]; rfl,
    fun h => seriesMax_spec _ h, fun h => by rw [h]; rfl⟩

/-- Witness for C3 at a concrete snapshot: the read series `[10, 50, 30]`
has its scale value in the series, bounded below by the sample 50. -/
theorem c3_activity_scale_windowed_max_witness :
    seriesMax [10, 50, 30] ∈ ([10, 50, 30] : List Nat) ∧
    (50 : Nat) ≤ seriesMax [10, 50, 30] :=
  ⟨((c3_activity_scale_windowed_max appW 0 ⟨[10, 50, 30]⟩ ⟨[5, 5, 5]⟩ rfl rfl).2.1
      (by decide)).1,
    ((c3_activity_scale_windowed_max appW 0 ⟨[10, 50, 30]⟩ ⟨[5, 5, 5]⟩ rfl rfl).2.1
      (by decide)).2 50 (by decide)⟩

/-- C4 counterexample: the non-empty all-zero series `[0, 0]` is a fetched
series for which the scale denominator computed by
`disk_activity_histogram` is 0, not floored at 1: the strips are rendered
with a `.max(0)` scale. -/
theorem c4_scale_floor_counterexample :
    (∀ v ∈ ([0, 0] : List Nat), v = 0) ∧ ([0, 0] : List Nat) ≠ [] ∧
    seriesMax [0, 0] = 0 ∧
    disk_activity_histogram appZero 0 =
      [RenderOp.sparkline (activityTitle "R" (float_to_byte_string 0)
          (float_to_byte_string 0) "") [0, 0] 0 RColor.lightYellow,
        RenderOp.sparkline (activityTitle "W" (float_to_byte_string 0)
          (float_to_byte_string 0) "") [0, 0] 0 RColor.lightMagenta] ∧
    ¬ 1 ≤ seriesMax [0, 0] :=
  ⟨by decide, by decide, rfl, rfl, by decide⟩

/-- C4 amended: the floor at 1 applies exactly to the zero-length case —
an empty fetched series yields scale denominator 1, while a non-empty
all-zero series yields denominator 0 (the windowed maximum itself). -/
theorem c4_amended_scale_floor (data : List Nat) :
    (data = [] → seriesMax data = 1) ∧
    (data ≠ [] → (∀ v ∈ data, v = 0) → seriesMax data = 0) := by
  constructor
  · rintro rfl
    rfl
  · intro h hz
    exact hz _ (seriesMax_spec data h).1

/-- Witness for the amended C4 at the concrete series `[]` and `[0, 0]`. -/
theorem c4_amended_scale_floor_witness :
    seriesMax ([] : List Nat) = 1 ∧ seriesMax [0, 0] = 0 :=
  ⟨(c4_amended_scale_floor []).1 rfl,
    (c4_amended_scale_floor [0, 0]).2 (by decide) (by decide)⟩

/-- C5: for a selected index at or beyond the number of disks, `disk_usage`
draws nothing at all, while `render_disk` still produces the full selector
list — one entry per disk, styled by the free-space threshold — and no
entry bears the selection marker. -/
theorem c5_out_of_range_selector (app : CPUTimeApp) (view : View) (idx : Nat)
    (mode : FileSystemDisplay) (h : app.disks.length ≤ idx) :
    disk_usage app view idx = [] ∧
    (render_disk app view idx mode).selector = selectorEntries app.disks idx ∧
    (selectorEntries app.disks idx).length = app.disks.length ∧
    (∀ i, ∀ h1 : i < (selectorEntries app.disks idx).length,
      ∀ h2 : i < app.disks.length,
      (((selectorEntries app.disks idx)[i]).style = alertStyle ↔
        app.disks[i].get_perc_free_space < 10)) ∧
    (∀ i, ∀ h1 : i < (selectorEntries app.disks idx).length,
      ¬ beginsWith ((selectorEntries app.disks idx)[i]).text "→") := by
  refine ⟨?_, rfl, selectorEntries_length app.disks idx,
    fun i h1 h2 => (selector_style_spec app.disks idx i h1 h2).1,
    fun i h1 hb => ?_⟩
  · simp only [disk_usage, List.get?_eq_none.mpr h]
  · have hi := (selector_marker_spec app.disks idx i h1).1.mp hb
    have h2 : i < app.disks.length := by simpa [selectorEntries] using h1
    omega

/-- Witness for C5 at a concrete snapshot of two disks with selected
index 5. -/
theorem c5_out_of_range_selector_witness :
    disk_usage appW 0 5 = [] ∧
    (selectorEntries appW.disks 5).length = appW.disks.length ∧
    ¬ beginsWith ((selectorEntries appW.disks 5).get ⟨0, by decide⟩).text "→" :=
  ⟨(c5_out_of_range_selector appW 0 5 FileSystemDisplay.Usage (by decide)).1,
    (c5_out_of_range_selector appW 0 5 FileSystemDisplay.Usage (by decide)).2.2.1,
    (c5_out_of_range_selector appW 0 5 FileSystemDisplay.Usage (by decide)).2.2.2.2
      0 (by decide)⟩

/-- C6: whenever `disk_usage` renders a strip for the selected device, the
sparkline scale maximum is the device capacity `size_bytes`; every sparkline
issued by the call carries that scale. -/
theorem c6_usage_scale_capacity (app : CPUTimeApp) (view : View) (idx : Nat)
    (fs : DiskInfo) (h_used : Histogram)
    (h1 : app.disks.get? idx = some fs)
    (h2 : app.histogram_map.get_zoomed
      (HistogramKind.FileSystemUsedSpace fs.name) view = some h_used) :
    (∃ t rest, disk_usage app view idx =
      RenderOp.sparkline t h_used.data fs.size_bytes RColor.lightYellow :: rest) ∧
    (∀ t d m c, RenderOp.sparkline t d m c ∈ disk_usage app view idx →
      m = fs.size_bytes) := by
  have heq := disk_usage_present app view idx fs h_used h1 h2
  refine ⟨⟨_, _, heq⟩, fun t d m c hm => ?_⟩
  rw [heq] at hm
  simp only [List.mem_cons, List.mem_singleton, List.not_mem_nil, or_false] at hm
  rcases hm with hm | hm | hm
  · exact (RenderOp.sparkline.injEq _ _ _ _ _ _ _ _).mp hm |>.2.2.1
  · exact RenderOp.noConfusion hm
  · exact RenderOp.noConfusion hm

/-- Witness for C6 at a concrete snapshot: disk 0 selected, used-space
series `[100, 200, 150]` present, strip scaled to the 1000-byte capacity. -/
theorem c6_usage_scale_capacity_witness :
    ∃ t rest, disk_usage appW 0 0 =
      RenderOp.sparkline t [100, 200, 150] diskA.size_bytes RColor.lightYellow :: rest :=
  (c6_usage_scale_capacity appW 0 0 diskA ⟨[100, 200, 150]⟩ rfl rfl).1

/-- C7: the attribution label is empty when the top-reader/top-writer pid is
absent or when the process lookup fails, and on a successful lookup it is
the bracketed string carrying the process id, name and owning user. -/
theorem c7_attribution_label (pid? : Option Nat)
    (process_map : Nat → Option ZProcess) :
    (pid? = none → processLabel pid? process_map = "") ∧
    (∀ pid, pid? = some pid → process_map pid = none →
      processLabel pid? process_map = "") ∧
    (∀ pid p, pid? = some pid → process_map pid = some p →
      processLabel pid? process_map =
        "[" ++ toString p.pid ++ " - " ++ p.name ++ " - " ++ p.user_name ++ "]") := by
  refine ⟨fun h => ?_, fun pid h hp => ?_, fun pid p h hp => ?_⟩
  · subst h
    rfl
  · subst h
    simp only [processLabel.eq_def, hp]
  · subst h
    simp only [processLabel.eq_def, hp]

/-- Witness for C7 at a concrete process table resolving pid 42 only. -/
theorem c7_attribution_label_witness :
    processLabel (some 42) procMapW =
      "[" ++ toString (42 : Nat) ++ " - " ++ "proc" ++ " - " ++ "u" ++ "]" ∧
    processLabel (some 7) procMapW = "" ∧
    processLabel none procMapW = "" :=
  ⟨(c7_attribution_label (some 42) procMapW).2.2 42 ⟨42, "proc", "u"⟩ rfl rfl,
    (c7_attribution_label (some 7) procMapW).2.1 7 rfl rfl,
    (c7_attribution_label none procMapW).1 rfl⟩

/-- C8: for an in-range selected index whose used-space series lookup is
absent, `disk_usage` renders nothing at all — neither the strip nor the two
detail text columns. -/
theorem c8_usage_absent_series (app : CPUTimeApp) (view : View) (idx : Nat)
    (fs : DiskInfo) (h1 : app.disks.get? idx = some fs)
    (h2 : app.histogram_map.get_zoomed
      (HistogramKind.FileSystemUsedSpace fs.name) view = none) :
    disk_usage app view idx = [] := by
  simp only [disk_usage, h1, h2]

/-- Witness for C8: disk 0 is in range but its used-space series is absent
from the history store. -/
theorem c8_usage_absent_series_witness :
    appNoRead.disks.get? 0 = some diskA ∧
    appNoRead.histogram_map.get_zoomed
      (HistogramKind.FileSystemUsedSpace diskA.name) 0 = none ∧
    disk_usage appNoRead 0 0 = [] :=
  ⟨rfl, rfl, c8_usage_absent_series appNoRead 0 0 diskA rfl rfl⟩

/-- C9: the current-rate strings in the two activity strip titles are
computed solely from the snapshot aggregates `disk_read` and `disk_write`:
in any two runs with equal aggregates and both history series present, the
titles have the form `activityTitle` with identical current-rate components,
whatever the fetched series contain. -/
theorem c9_current_rate_independent (s1 s2 : CPUTimeApp) (v1 v2 : View)
    (hr1 hw1 hr2 hw2 : Histogram)
    (e1 : s1.disk_read = s2.disk_read) (e2 : s1.disk_write = s2.disk_write)
    (p1 : s1.histogram_map.get_zoomed HistogramKind.IoRead v1 = some hr1)
    (p2 : s1.histogram_map.get_zoomed HistogramKind.IoWrite v1 = some hw1)
    (p3 : s2.histogram_map.get_zoomed HistogramKind.IoRead v2 = some hr2)
    (p4 : s2.histogram_map.get_zoomed HistogramKind.IoWrite v2 = some hw2) :
    (∃ mR aR mW aW, disk_activity_histogram s1 v1 =
      [RenderOp.sparkline (activityTitle "R" (float_to_byte_string s1.disk_read) mR aR)
          hr1.data (seriesMax hr1.data) RColor.lightYellow,
        RenderOp.sparkline (activityTitle "W" (float_to_byte_string s1.disk_write) mW aW)
          hw1.data (seriesMax hw1.data) RColor.lightMagenta]) ∧
    (∃ mR aR mW aW, disk_activity_histogram s2 v2 =
      [RenderOp.sparkline (activityTitle "R" (float_to_byte_string s2.disk_read) mR aR)
          hr2.data (seriesMax hr2.data) RColor.lightYellow,
        RenderOp.sparkline (activityTitle "W" (float_to_byte_string s2.disk_write) mW aW)
          hw2.data (seriesMax hw2.data) RColor.lightMagenta]) ∧
    float_to_byte_string s1.disk_read = float_to_byte_string s2.disk_read ∧
    float_to_byte_string s1.disk_write = float_to_byte_string s2.disk_write :=
  ⟨⟨_, _, _, _, disk_activity_histogram_present s1 v1 hr1 hw1 p1 p2⟩,
    ⟨_, _, _, _, disk_activity_histogram_present s2 v2 hr2 hw2 p3 p4⟩,
    by rw [e1], by rw [e2]⟩

/-- Witness for C9: two concrete snapshots sharing aggregates but holding
different history series produce identical current-rate strings. -/
theorem c9_current_rate_independent_witness :
    float_to_byte_string appW.disk_read = float_to_byte_string appW2.disk_read ∧
    float_to_byte_string appW.disk_write = float_to_byte_string appW2.disk_write :=
  ⟨(c9_current_rate_independent appW appW2 0 0 ⟨[10, 50, 30]⟩ ⟨[5, 5, 5]⟩
      ⟨[1, 2]⟩ ⟨[7]⟩ rfl rfl rfl rfl rfl rfl).2.2.1,
    (c9_current_rate_independent appW appW2 0 0 ⟨[10, 50, 30]⟩ ⟨[5, 5, 5]⟩
      ⟨[1, 2]⟩ ⟨[7]⟩ rfl rfl rfl rfl rfl rfl).2.2.2⟩
